import Mathlib

/-!
Shallow embedding of the report-retrieval pipeline of an App Store Connect
MCP server: the payload resolver of `src/services/appstore-client.ts`
(`AppStoreConnectClient.request`, report-endpoint branch), the in-memory
variant client (`AppStoreConnectClient.downloadReport`), the report-date
validation of `src/handlers/analytics.ts`, and the error classifier of
`src/index.ts` (`formatToolResponse`).

Byte buffers are `List Nat` (one entry per byte).  Gzip decompression and
UTF-8 decoding are environment parameters (`ReportEnv`): the source calls
`zlib.gunzipSync` and `Buffer.toString('utf-8')`, which we treat as opaque
functions, quantified over in the theorems.  The temporary-file staging of
the resolver is modelled by an explicit two-slot file-system state
(`TempFS`), and the possibility that `fs.unlinkSync` throws by an explicit
`UnlinkBehavior`.
-/

/-- A single apostrophe character, used to spell source message strings. -/
def apos : String := String.singleton (Char.ofNat 39)

/-- Does `needle` occur at the head of the character list? -/
def headMatches : List Char → List Char → Bool
  | [], _ => true
  | _ :: _, [] => false
  | p :: ps, c :: cs => p == c && headMatches ps cs

/-- Does `needle` occur anywhere in the character list? -/
def occursIn (needle haystack : List Char) : Bool :=
  match haystack with
  | [] => headMatches needle []
  | _ :: rest => headMatches needle haystack || occursIn needle rest

/-- JS `haystack.includes(needle)`: substring containment. -/
def strContains (haystack needle : String) : Bool :=
  occursIn needle.data haystack.data

/-- JS falsiness of a string: `!s` is true exactly on the empty string. -/
def jsFalsy (s : String) : Bool := s.data.isEmpty

/-- The whitespace stripped by JS `String.prototype.trim` (the ASCII
portion: space, tab, and the line terminators / form feed / vertical tab;
the report texts at issue contain no exotic Unicode spaces). -/
def isJsWhitespace (c : Char) : Bool :=
  c == ' ' || c == '\t' || c == '\n' || c == '\r' || c == '\x0b' || c == '\x0c'

/-- Strip leading JS whitespace from a character list. -/
def trimLeftChars : List Char → List Char
  | [] => []
  | c :: rest => if isJsWhitespace c then trimLeftChars rest else c :: rest

/-- JS `s.trim()` on the underlying character list. -/
def trimChars (l : List Char) : List Char :=
  ((trimLeftChars l.reverse).reverse |> trimLeftChars)

/-- JS `s.startsWith(c)` for a single-character pattern. -/
def startsWithChar (c : Char) : List Char → Bool
  | [] => false
  | x :: _ => x == c

/-- Gzip magic-number sniff from `appstore-client.ts` line 64:
`buffer.length >= 2 && buffer[0] === 0x1f && buffer[1] === 0x8b`. -/
def isGzipMagic : List Nat → Bool
  | b0 :: b1 :: _ => b0 == 0x1f && b1 == 0x8b
  | _ => false

/-- Endpoint classification from `appstore-client.ts` line 26:
`url.includes('/salesReports') || url.includes('/financeReports')`. -/
def isReportEndpoint (url : String) : Bool :=
  strContains url "/salesReports" || strContains url "/financeReports"

/-- Environment for the report pipeline: `zlib.gunzipSync` (failure carries
the thrown message) and `Buffer.toString('utf-8')` (total in Node: invalid
sequences become replacement characters). -/
structure ReportEnv where
  gunzip : List Nat → Except String (List Nat)
  utf8 : List Nat → String

/-- Result of `JSON.parse` on the candidate error document, abstracted:
either the parse throws (`fail`), or it yields an object whose `errors`
field is absent (`ok none`) or present with serialization `s`
(`ok (some s)`, `s` standing for `JSON.stringify(jsonData.errors)`). -/
inductive JsonParse where
  | fail : JsonParse
  | ok : Option String → JsonParse
deriving DecidableEq

/-- Outcome of resolving a report-endpoint response: the returned
`{ data: text }` payload, or a thrown error carrying its message. -/
inductive ReportOutcome where
  | payload : String → ReportOutcome
  | error : String → ReportOutcome
deriving DecidableEq

/-- The two staged temporary files (`apple_report_*.gz`, `apple_report_*.txt`):
`some bytes` = file exists with those contents, `none` = absent. -/
structure TempFS where
  gz : Option (List Nat)
  txt : Option (List Nat)
deriving DecidableEq

/-- Whether each `fs.unlinkSync` call succeeds (`true`) or throws (`false`,
leaving the file in place). -/
structure UnlinkBehavior where
  gzOk : Bool
  txtOk : Bool

/-- JS `csvData.includes(concat(backslash zero))`: embedded NUL check. -/
def containsNull (s : String) : Bool := s.data.contains (Char.ofNat 0)

/-- Success-path cleanup, `appstore-client.ts` lines 100-106:
`try { unlinkSync(gz); unlinkSync(txt) } catch (e) { ... }` — if unlinking
the `.gz` file throws, the `.txt` unlink is never attempted. -/
def cleanupSuccess (u : UnlinkBehavior) (fs : TempFS) : TempFS :=
  if u.gzOk then
    let fs1 : TempFS := { fs with gz := none }
    if u.txtOk then { fs1 with txt := none } else fs1
  else fs

/-- Error-path cleanup, `appstore-client.ts` lines 112-117:
`try { if (existsSync(gz)) unlinkSync(gz); if (existsSync(txt)) unlinkSync(txt) }
catch (e) { }` — a throw on the first unlink skips the second. -/
def cleanupError (u : UnlinkBehavior) (fs : TempFS) : TempFS :=
  match fs.gz with
  | some _ =>
    if u.gzOk then
      let fs1 : TempFS := { fs with gz := none }
      match fs1.txt with
      | some _ => if u.txtOk then { fs1 with txt := none } else fs1
      | none => fs1
    else fs
  | none =>
    match fs.txt with
    | some _ => if u.txtOk then { fs with txt := none } else fs
    | none => fs

/-- The gzip branch of `AppStoreConnectClient.request`
(`appstore-client.ts` lines 64-120): write raw bytes to the `.gz` temp
file, `gunzipSync`, write the decompressed bytes to the `.txt` temp file,
read them back as UTF-8, reject empty or NUL-containing text
(`if (!csvData || csvData.includes(...))`), clean up, and return the text;
any throw is caught, temp files are cleaned up best-effort, and a
`Failed to decompress report data: ...` error is rethrown.
Returns the outcome together with the final temp-file state. -/
def gzipTempPath (env : ReportEnv) (u : UnlinkBehavior) (buffer : List Nat) :
    ReportOutcome × TempFS :=
  let fs0 : TempFS := ⟨none, none⟩
  let fs1 : TempFS := { fs0 with gz := some buffer }
  match env.gunzip buffer with
  | Except.error e =>
    (ReportOutcome.error ("Failed to decompress report data: " ++ e), cleanupError u fs1)
  | Except.ok decompressed =>
    let fs2 : TempFS := { fs1 with txt := some decompressed }
    match fs2.txt with
    | none => (ReportOutcome.error "Failed to decompress report data: ENOENT", cleanupError u fs2)
    | some stored =>
      let csvData := env.utf8 stored
      if jsFalsy csvData || containsNull csvData then
        (ReportOutcome.error
          ("Failed to decompress report data: Decompressed data contains invalid characters"),
         cleanupError u fs2)
      else
        (ReportOutcome.payload csvData, cleanupSuccess u fs2)

/-- The non-gzip branch of `AppStoreConnectClient.request`
(`appstore-client.ts` lines 121-137): decode the buffer as UTF-8; if the
trimmed text starts with a brace, run
`try { jsonData = JSON.parse(textData); if (jsonData.errors) throw ApiError }
catch (e) { }` — note that the `catch` swallows the `API Error` throw just
as it swallows a parse failure — and then return the text as the payload. -/
def nonGzipBranch (parse : String → JsonParse) (textData : String) : ReportOutcome :=
  if startsWithChar '\x7b' (trimChars textData.data) then
    let inner : Except String Unit :=
      match parse textData with
      | JsonParse.fail => Except.error "JSON.parse threw"
      | JsonParse.ok (some errs) => Except.error ("API Error: " ++ errs)
      | JsonParse.ok none => Except.ok ()
    match inner with
    | Except.error _ => ReportOutcome.payload textData
    | Except.ok _ => ReportOutcome.payload textData
  else
    ReportOutcome.payload textData

/-- Report-endpoint response resolution of `AppStoreConnectClient.request`
(`appstore-client.ts` lines 49-143), given the response buffer: dispatch on
the gzip magic number; result paired with the final temp-file state (the
non-gzip branch touches no files). -/
def resolveReportBuffer (env : ReportEnv) (parse : String → JsonParse)
    (u : UnlinkBehavior) (buffer : List Nat) : ReportOutcome × TempFS :=
  if isGzipMagic buffer then
    gzipTempPath env u buffer
  else
    (nonGzipBranch parse (env.utf8 buffer), ⟨none, none⟩)

/-- The in-memory variant client's `AppStoreConnectClient.downloadReport`
(lines 89-113 of the variant source): sniff the magic number, `gunzipSync`
in memory and return `decompressed.toString('utf-8')`, else return the
buffer decoded as UTF-8; a `gunzipSync` throw propagates (logged and
rethrown by the surrounding catch). -/
def downloadReportResolve (env : ReportEnv) (buffer : List Nat) : ReportOutcome :=
  if isGzipMagic buffer then
    match env.gunzip buffer with
    | Except.error e => ReportOutcome.error e
    | Except.ok decompressed => ReportOutcome.payload (env.utf8 decompressed)
  else
    ReportOutcome.payload (env.utf8 buffer)

/-- ASCII decoding, a concrete instance of `Buffer.toString('utf-8')` on
all-ASCII buffers, used to evaluate the pipeline at concrete inputs. -/
def asciiDecode (bs : List Nat) : String :=
  String.mk (bs.map (fun b => Char.ofNat b))

/-! ## Request construction (`appstore-client.ts` lines 22-46 and the
variant client's `downloadReport` lines 68-84) -/

/-- An outgoing HTTP request's headers and axios `responseType`. -/
structure RequestConfig where
  headers : List (String × String)
  responseType : String
deriving DecidableEq

/-- Header and transport-mode construction of `AppStoreConnectClient.request`
(`appstore-client.ts` lines 26-46): `Authorization` and `Content-Type`
always, `Accept: application/a-gzip, application/json` only for report
endpoints, and `responseType` `arraybuffer` for report endpoints, `json`
otherwise. -/
def buildRequestConfig (token url : String) : RequestConfig :=
  let isReport := isReportEndpoint url
  let baseHeaders : List (String × String) :=
    [("Authorization", "Bearer " ++ token), ("Content-Type", "application/json")]
  { headers :=
      if isReport then baseHeaders ++ [("Accept", "application/a-gzip, application/json")]
      else baseHeaders,
    responseType := if isReport then "arraybuffer" else "json" }

/-- Header and transport-mode construction of the variant client's
`downloadReport` (variant source lines 76-84): `Authorization`,
`Accept: application/a-gzip` (without `application/json`), and
`responseType: 'arraybuffer'`. -/
def downloadReportConfig (token : String) : RequestConfig :=
  { headers := [("Authorization", "Bearer " ++ token), ("Accept", "application/a-gzip")],
    responseType := "arraybuffer" }

/-! ## Report-date validation (`src/handlers/analytics.ts`) -/

/-- JS regex test `/^(backslash d){4}-(backslash d){2}$/.test(reportDate)`
(`analytics.ts` lines 115-116): exactly four digits, a hyphen, two digits. -/
def matchesDatePattern (s : String) : Bool :=
  match s.data with
  | [a, b, c, d, dash, e, f] =>
    a.isDigit && b.isDigit && c.isDigit && d.isDigit && dash == '-' && e.isDigit && f.isDigit
  | _ => false

/-- JS `str.split(sep)` for a one-character separator: split at every
occurrence, keeping empty fields (`"".split = [""]`). -/
def jsSplitOnChar (sep : Char) : List Char → List (List Char)
  | [] => [[]]
  | c :: rest =>
    let r := jsSplitOnChar sep rest
    if c == sep then [] :: r
    else
      match r with
      | h :: t => (c :: h) :: t
      | [] => [[c]]

/-- JS `Number(str)` on the all-digit fields produced by a matched
`YYYY-MM` date: the decimal value (`Number` of the empty string is 0). -/
def jsNumberOfDigits (l : List Char) : Int :=
  (l.foldl (fun acc c => acc * 10 + (c.toNat - 48)) 0 : Nat)

/-- `reportDate.split('-').map(Number)` on a date string (`analytics.ts`
line 120), as a (year, month) pair.  Only the two-field shape is used by
the source after the pattern check. -/
def parseYearMonth (s : String) : Int × Int :=
  match jsSplitOnChar '-' s.data with
  | [y, m] => (jsNumberOfDigits y, jsNumberOfDigits m)
  | _ => (0, 0)

/-- An instant of local time: the index of its calendar month
(`year * 12 + monthOfYear`, as normalized by the JS `Date` constructor)
and the elapsed time within that month.  `new Date(year, month - 1)` is
the instant `⟨year * 12 + (month - 1), 0⟩`; any instant inside month `m`
has `monthIndex = m` and some `offset`.  JS `Date` comparison is the
lexicographic order on this representation. -/
structure Instant where
  monthIndex : Int
  offset : Nat
deriving DecidableEq

/-- JS `<` on `Date` values in the month/offset representation:
lexicographic. -/
def Instant.jsLt (a b : Instant) : Bool :=
  decide (a.monthIndex < b.monthIndex) ||
    (a.monthIndex == b.monthIndex && decide (a.offset < b.offset))

/-- `new Date(year, month - 1)`: the first instant of the (normalized)
month. -/
def monthStart (m : Int) : Instant := ⟨m, 0⟩

/-- ECMA-262 `MakeFullYear`, applied by the `Date(year, month)`
constructor: integer year values 0 through 99 denote 1900 + year; all
other years denote themselves. -/
def makeFullYear (y : Int) : Int :=
  if 0 ≤ y ∧ y ≤ 99 then 1900 + y else y

/-- The month index denoted by `new Date(year, month - 1)`: `MakeFullYear`
on the year, and the JS month-overflow normalization absorbed into
`year * 12 + monthOfYear` arithmetic. -/
def jsDateMonthIndex (year month : Int) : Int :=
  makeFullYear year * 12 + (month - 1)

/-- Modelled from the spec: `validateRequired` lives in `src/utils`
(absent from the sources); the spec says the per-endpoint argument
validation helpers "only check presence".  It throws when a required
argument is absent. -/
def validateRequired (present : Bool) (field : String) : Except String Unit :=
  if present then Except.ok () else Except.error (field ++ " is required")

/-- The observable outcome of a report handler: a thrown validation /
configuration error, or a dispatch to the network layer
(`this.client.downloadReport(path, filters)`), carrying the path and the
filter parameters. -/
inductive HandlerResult where
  | failure : String → HandlerResult
  | network : String → List (String × String) → HandlerResult
deriving DecidableEq

/-- `const { vendorNumber = this.config?.vendorNumber, ... } = args`
(`analytics.ts` lines 100-106 / 147): the destructuring default applies
the configured vendor number only when the argument is absent. -/
def effectiveVendor (cfgVendor argVendor : Option String) : Option String :=
  match argVendor with
  | some v => some v
  | none => cfgVendor

/-- The vendor-number configuration error (`analytics.ts` lines 109, 150). -/
def vendorRequiredMsg : String :=
  "Vendor number is required. Please provide it as an argument or set APP_STORE_CONNECT_VENDOR_NUMBER environment variable."

/-- The date-format validation error (`analytics.ts` lines 117, 158). -/
def dateFormatMsg : String :=
  "Report date must be in YYYY-MM format (e.g., 2024-01)"

/-- The future-date error of `downloadSalesReport` (`analytics.ts` line 125). -/
def futureSalesMsg (reportDate : String) : String :=
  "Cannot request sales report for future date: " ++ reportDate ++ ". Sales reports are only available for past months."

/-- The future-date error of `downloadFinanceReport` (`analytics.ts` line 166). -/
def futureFinanceMsg (reportDate : String) : String :=
  "Cannot request finance report for future date: " ++ reportDate ++ ". Finance reports are only available for past months."

/-- `AnalyticsHandlers.downloadSalesReport` (`analytics.ts` lines 93-140):
resolve the vendor number from the argument or the configuration and
reject a falsy result; check the required `reportDate`; reject a report
date that fails the `YYYY-MM` pattern; reject a report date whose month
start lies strictly after the current instant; otherwise call
`client.downloadReport('/salesReports', filters)`.  `now` is the value of
`new Date()` at line 122. -/
def downloadSalesReport (cfgVendor argVendor : Option String)
    (reportType reportSubType frequency : Option String)
    (reportDate : String) (now : Instant) : HandlerResult :=
  let vendorNumber := effectiveVendor cfgVendor argVendor
  let rType := reportType.getD "SALES"
  let rSub := reportSubType.getD "SUMMARY"
  let freq := frequency.getD "MONTHLY"
  match vendorNumber with
  | none => HandlerResult.failure vendorRequiredMsg
  | some vn =>
    if jsFalsy vn then
      HandlerResult.failure vendorRequiredMsg
    else
      match validateRequired true "reportDate" with
      | Except.error e => HandlerResult.failure e
      | Except.ok _ =>
        if !(matchesDatePattern reportDate) then
          HandlerResult.failure dateFormatMsg
        else
          let ym := parseYearMonth reportDate
          let reportDateObj := monthStart (jsDateMonthIndex ym.1 ym.2)
          if Instant.jsLt now reportDateObj then
            HandlerResult.failure (futureSalesMsg reportDate)
          else
            HandlerResult.network "/salesReports"
              [("reportDate", reportDate), ("reportType", rType),
               ("reportSubType", rSub), ("frequency", freq), ("vendorNumber", vn)]

/-- `AnalyticsHandlers.downloadFinanceReport` (`analytics.ts` lines
142-176): same vendor, pattern and future-date checks, with the
finance-specific messages, then `client.downloadReport('/financeReports',
filters)`. -/
def downloadFinanceReport (cfgVendor argVendor : Option String)
    (reportDate regionCode : String) (now : Instant) : HandlerResult :=
  let vendorNumber := effectiveVendor cfgVendor argVendor
  match vendorNumber with
  | none => HandlerResult.failure vendorRequiredMsg
  | some vn =>
    if jsFalsy vn then
      HandlerResult.failure vendorRequiredMsg
    else
      match validateRequired true "reportDate", validateRequired true "regionCode" with
      | Except.error e, _ => HandlerResult.failure e
      | _, Except.error e => HandlerResult.failure e
      | Except.ok _, Except.ok _ =>
        if !(matchesDatePattern reportDate) then
          HandlerResult.failure dateFormatMsg
        else
          let ym := parseYearMonth reportDate
          let reportDateObj := monthStart (jsDateMonthIndex ym.1 ym.2)
          if Instant.jsLt now reportDateObj then
            HandlerResult.failure (futureFinanceMsg reportDate)
          else
            HandlerResult.network "/financeReports"
              [("reportDate", reportDate), ("regionCode", regionCode), ("vendorNumber", vn)]

/-! ## Error classifier (`src/index.ts`, `formatToolResponse` lines 651-712) -/

/-- The first structured API error of a failed response
(`error.response?.data?.errors?.[0]`), with its optional `detail` and
`title` fields. -/
structure ApiErr where
  detail : Option String
  title : Option String
deriving DecidableEq

/-- The fields of a failed call that `formatToolResponse` inspects:
whether `axios.isAxiosError(error)` holds, `error.response?.status`,
`error.config?.url`, whether `error.config?.params?.include` is truthy,
the first structured API error if any, and `error.message`. -/
structure AxiosErrorInfo where
  isAxios : Bool
  status : Option Int
  url : Option String
  hasIncludeParam : Bool
  apiError : Option ApiErr
  message : String

/-- `error.config?.url?.includes(pat)` with JS optional chaining: an absent
url is falsy. -/
def urlIncludes (e : AxiosErrorInfo) (pat : String) : Bool :=
  match e.url with
  | some u => strContains u pat
  | none => false

/-- JS `a || b` on an optional string: falsy (absent or empty) falls
through to the default. -/
def orFalsy (o : Option String) (dflt : String) : String :=
  match o with
  | some s => if jsFalsy s then dflt else s
  | none => dflt

/-- `String(x)` on an optional value as produced by template interpolation:
`undefined` prints as "undefined". -/
def jsShowOpt (o : Option String) : String := o.getD "undefined"

/-- `${status}` for the optional numeric status. -/
def jsShowStatus (o : Option Int) : String :=
  match o with
  | some n => toString n
  | none => "undefined"

/-- The 404 diagnostic for sales-report paths (`index.ts` lines 663-666). -/
def sales404Msg : String :=
  "Sales report not found. This typically happens when:\n- The requested date is in the future\n- No sales data exists for the requested period\n- The report hasn" ++ apos ++ "t been generated yet (reports are usually available 1-2 days after the period ends)"

/-- The 404 diagnostic for finance-report paths (`index.ts` lines 668-671). -/
def finance404Msg : String :=
  "Finance report not found. This typically happens when:\n- The requested date is in the future\n- No financial data exists for the requested period\n- The report hasn" ++ apos ++ "t been generated yet (finance reports are usually available after the 5th of the following month)"

/-- The 400 diagnostic for app-detail paths with include parameters
(`index.ts` lines 678-682). -/
def badInclude400Msg : String :=
  "Bad request: Invalid relationship includes. Common issues:\n- Using \"customerReviews\" instead of \"reviewSubmissions\"\n- Using \"perfPowerMetrics\" which is not a valid relationship\n- Check that all include values match the API documentation exactly"

/-- The error-message computation of `AppStoreConnectServer.formatToolResponse`
(`index.ts` lines 652-691): start from `error.message`; for axios errors
branch on status 404 (report-path diagnostics, else structured detail or a
generic not-found naming the url), status 400 (include diagnostics, else
structured detail or a generic bad-request), any status with a structured
error (detail, else title, else the message), and otherwise a generic
`Request failed with status N` message. -/
def formatToolResponseMessage (e : AxiosErrorInfo) : String :=
  if !e.isAxios then e.message
  else if e.status == some 404 then
    if urlIncludes e "/salesReports" then sales404Msg
    else if urlIncludes e "/financeReports" then finance404Msg
    else orFalsy (e.apiError.bind (fun a => a.detail))
      ("Resource not found (404): " ++ jsShowOpt e.url)
  else if e.status == some 400 then
    if urlIncludes e "/apps/" && e.hasIncludeParam then badInclude400Msg
    else orFalsy (e.apiError.bind (fun a => a.detail))
      "Bad request: The request parameters are invalid. Check that all values match the API requirements."
  else
    match e.apiError with
    | some a =>
      "App Store Connect API error: " ++ orFalsy a.detail (orFalsy a.title e.message)
    | none =>
      "Request failed with status " ++ jsShowStatus e.status ++ ": " ++ e.message

/-! ## Concrete instances used to evaluate the pipeline -/

/-- The bytes of the text "hello". -/
def helloBytes : List Nat := [104, 101, 108, 108, 111]

/-- A stand-in gzip-compressed buffer: it carries the magic number; what
it decompresses to is given by the environment. -/
def gzStub : List Nat := [0x1f, 0x8b, 8, 0]

/-- An environment in which decompression of any buffer yields the bytes
of "hello" and decoding is ASCII. -/
def helloEnv : ReportEnv := ⟨fun _ => Except.ok helloBytes, asciiDecode⟩

/-- An environment in which decompression yields the empty byte sequence. -/
def emptyEnv : ReportEnv := ⟨fun _ => Except.ok [], asciiDecode⟩

/-- A `JSON.parse` oracle that always throws (non-JSON input). -/
def parseFail : String → JsonParse := fun _ => JsonParse.fail

/-- A JSON error document as returned by the API on a report endpoint. -/
def apiErrorText : String := "\x7b\"errors\":[\x7b\"status\":\"404\"\x7d]\x7d"

/-- The serialized `errors` array of `apiErrorText`. -/
def apiErrorsList : String := "[\x7b\"status\":\"404\"\x7d]"

/-- The byte buffer carrying `apiErrorText`. -/
def apiErrorBuffer : List Nat := apiErrorText.data.map Char.toNat

/-- A `JSON.parse` oracle agreeing with JS on `apiErrorText` (an object
with an `errors` array) and throwing elsewhere. -/
def parseApiErrors : String → JsonParse :=
  fun s => if s == apiErrorText then JsonParse.ok (some apiErrorsList) else JsonParse.fail

/-- An environment for non-gzip buffers: decompression is never reached. -/
def textEnv : ReportEnv := ⟨fun _ => Except.error "unreachable", asciiDecode⟩

/-- Unlink behavior in which both removals succeed. -/
def allOk : UnlinkBehavior := ⟨true, true⟩

/-! ## Claims -/

/-- Claim C1 (code bug): for a report-endpoint response buffer without the
gzip magic whose trimmed UTF-8 text begins with a brace and parses as JSON
containing an `errors` field, the claim says the operation fails with a
domain error carrying that list; the code instead returns the text as the
payload, because the `API Error` throw at `appstore-client.ts` line 130
lies inside the very `try` whose `catch` (line 132, "Not JSON, continue as
text") swallows it.  Evaluated at a concrete error document. -/
theorem C1_error_document_swallowed :
    isGzipMagic apiErrorBuffer = false ∧
    startsWithChar '\x7b' (trimChars (asciiDecode apiErrorBuffer).data) = true ∧
    parseApiErrors (asciiDecode apiErrorBuffer) = JsonParse.ok (some apiErrorsList) ∧
    resolveReportBuffer textEnv parseApiErrors allOk apiErrorBuffer
      = (ReportOutcome.payload apiErrorText, ⟨none, none⟩) := by decide

/-- Claim C9: a report-endpoint response buffer that is not gzip-magic and
whose trimmed UTF-8 decoding does not begin with a brace is returned as
the payload, decoded as UTF-8, unchanged — in both client variants. -/
theorem C9_plain_text_returned (env : ReportEnv) (parse : String → JsonParse)
    (u : UnlinkBehavior) (buffer : List Nat)
    (hm : isGzipMagic buffer = false)
    (hb : startsWithChar '\x7b' (trimChars (env.utf8 buffer).data) = false) :
    resolveReportBuffer env parse u buffer
      = (ReportOutcome.payload (env.utf8 buffer), ⟨none, none⟩) ∧
    downloadReportResolve env buffer = ReportOutcome.payload (env.utf8 buffer) := by
  constructor
  · simp only [resolveReportBuffer, hm, Bool.false_eq_true, if_false, nonGzipBranch, hb]
  · simp only [downloadReportResolve, hm, Bool.false_eq_true, if_false]

/-- Witness for C9 at the buffer "hi". -/
theorem C9_plain_text_returned_witness :
    isGzipMagic [104, 105] = false ∧
    (resolveReportBuffer textEnv parseFail allOk [104, 105]
        = (ReportOutcome.payload (textEnv.utf8 [104, 105]), ⟨none, none⟩) ∧
      downloadReportResolve textEnv [104, 105]
        = ReportOutcome.payload (textEnv.utf8 [104, 105])) :=
  ⟨by decide, C9_plain_text_returned textEnv parseFail allOk [104, 105] (by decide) (by decide)⟩

/-- Claim C10: when the decompressed, read-back content of a gzip-magic
report buffer is the empty string, the temp-file client fails with the
`Decompressed data contains invalid characters` decode error even though
the empty content contains no NUL byte: `if (!csvData || ...)` rejects
emptiness on its own, strictly more than the NUL check. -/
theorem C10_empty_readback_rejected (env : ReportEnv) (parse : String → JsonParse)
    (u : UnlinkBehavior) (buffer d : List Nat)
    (hm : isGzipMagic buffer = true)
    (hg : env.gunzip buffer = Except.ok d)
    (he : env.utf8 d = "") :
    (resolveReportBuffer env parse u buffer).1
      = ReportOutcome.error
          "Failed to decompress report data: Decompressed data contains invalid characters" ∧
    containsNull (env.utf8 d) = false := by
  constructor
  · have hcond : (jsFalsy "" || containsNull "") = true := by decide
    simp [resolveReportBuffer, hm, gzipTempPath, hg, he, hcond]
  · rw [he]; decide

/-- Witness for C10: a magic-number buffer decompressing to nothing. -/
theorem C10_empty_readback_rejected_witness :
    isGzipMagic gzStub = true ∧ emptyEnv.gunzip gzStub = Except.ok [] ∧
    ((resolveReportBuffer emptyEnv parseFail allOk gzStub).1
        = ReportOutcome.error
            "Failed to decompress report data: Decompressed data contains invalid characters" ∧
      containsNull (emptyEnv.utf8 []) = false) :=
  ⟨by decide, rfl,
   C10_empty_readback_rejected emptyEnv parseFail allOk gzStub [] (by decide) rfl (by decide)⟩

/-- Claim C2: for every buffer whose first two bytes are 0x1F 0x8B, both
clients either fail with an error or return as the payload the
gzip-decompressed content decoded as text (the raw compressed bytes are
never handed back: any returned payload is the decoding of `gunzip`
output). -/
theorem C2_gzip_decompressed_never_raw (env : ReportEnv) (parse : String → JsonParse)
    (u : UnlinkBehavior) (buffer : List Nat) (h : isGzipMagic buffer = true) :
    ((∃ msg, (resolveReportBuffer env parse u buffer).1 = ReportOutcome.error msg) ∨
      (∃ d, env.gunzip buffer = Except.ok d ∧
        (resolveReportBuffer env parse u buffer).1 = ReportOutcome.payload (env.utf8 d))) ∧
    ((∃ msg, downloadReportResolve env buffer = ReportOutcome.error msg) ∨
      (∃ d, env.gunzip buffer = Except.ok d ∧
        downloadReportResolve env buffer = ReportOutcome.payload (env.utf8 d))) := by
  constructor
  · cases hg : env.gunzip buffer with
    | error e =>
      refine Or.inl ⟨"Failed to decompress report data: " ++ e, ?_⟩
      simp [resolveReportBuffer, h, gzipTempPath, hg]
    | ok d =>
      by_cases hv : (jsFalsy (env.utf8 d) || containsNull (env.utf8 d)) = true
      · refine Or.inl ⟨"Failed to decompress report data: Decompressed data contains invalid characters", ?_⟩
        simp [resolveReportBuffer, h, gzipTempPath, hg, hv]
      · refine Or.inr ⟨d, rfl, ?_⟩
        rw [Bool.not_eq_true] at hv
        simp [resolveReportBuffer, h, gzipTempPath, hg, hv]
  · cases hg : env.gunzip buffer with
    | error e =>
      refine Or.inl ⟨e, ?_⟩
      simp [downloadReportResolve, h, hg]
    | ok d =>
      refine Or.inr ⟨d, rfl, ?_⟩
      simp [downloadReportResolve, h, hg]

/-- Witness for C2 at a magic-number buffer decompressing to "hello". -/
theorem C2_gzip_decompressed_never_raw_witness :
    isGzipMagic gzStub = true ∧
    (((∃ msg, (resolveReportBuffer helloEnv parseFail allOk gzStub).1 = ReportOutcome.error msg) ∨
        (∃ d, helloEnv.gunzip gzStub = Except.ok d ∧
          (resolveReportBuffer helloEnv parseFail allOk gzStub).1
            = ReportOutcome.payload (helloEnv.utf8 d))) ∧
      ((∃ msg, downloadReportResolve helloEnv gzStub = ReportOutcome.error msg) ∨
        (∃ d, helloEnv.gunzip gzStub = Except.ok d ∧
          downloadReportResolve helloEnv gzStub = ReportOutcome.payload (helloEnv.utf8 d)))) :=
  ⟨by decide, C2_gzip_decompressed_never_raw helloEnv parseFail allOk gzStub (by decide)⟩

/-- Claim C3: on a gzip-magic report buffer, when the two `unlinkSync`
calls succeed, no staged temporary file remains after the attempt on any
exit path (success, decompression failure, or validation failure); and the
operation's outcome never depends on whether the removals succeed. -/
theorem C3_cleanup_every_path (env : ReportEnv) (parse : String → JsonParse)
    (u : UnlinkBehavior) (buffer : List Nat)
    (h : isGzipMagic buffer = true) (hgz : u.gzOk = true) (htxt : u.txtOk = true) :
    (resolveReportBuffer env parse u buffer).2 = ⟨none, none⟩ ∧
    ∀ u' : UnlinkBehavior,
      (resolveReportBuffer env parse u' buffer).1 = (resolveReportBuffer env parse u buffer).1 := by
  constructor
  · cases hg : env.gunzip buffer with
    | error e =>
      simp [resolveReportBuffer, h, gzipTempPath, hg, cleanupError, hgz]
    | ok d =>
      by_cases hv : (jsFalsy (env.utf8 d) || containsNull (env.utf8 d)) = true
      · simp [resolveReportBuffer, h, gzipTempPath, hg, hv, cleanupError, hgz, htxt]
      · rw [Bool.not_eq_true] at hv
        simp [resolveReportBuffer, h, gzipTempPath, hg, hv, cleanupSuccess, hgz, htxt]
  · intro u'
    cases hg : env.gunzip buffer with
    | error e =>
      simp [resolveReportBuffer, h, gzipTempPath, hg]
    | ok d =>
      by_cases hv : (jsFalsy (env.utf8 d) || containsNull (env.utf8 d)) = true
      · simp [resolveReportBuffer, h, gzipTempPath, hg, hv]
      · rw [Bool.not_eq_true] at hv
        simp [resolveReportBuffer, h, gzipTempPath, hg, hv]

/-- Witness for C3 at a magic-number buffer decompressing to "hello". -/
theorem C3_cleanup_every_path_witness :
    isGzipMagic gzStub = true ∧ allOk.gzOk = true ∧ allOk.txtOk = true ∧
    ((resolveReportBuffer helloEnv parseFail allOk gzStub).2 = ⟨none, none⟩ ∧
      ∀ u' : UnlinkBehavior,
        (resolveReportBuffer helloEnv parseFail u' gzStub).1
          = (resolveReportBuffer helloEnv parseFail allOk gzStub).1) :=
  ⟨by decide, rfl, rfl,
   C3_cleanup_every_path helloEnv parseFail allOk gzStub (by decide) rfl rfl⟩

/-- Claim C4: on a gzip-magic buffer on which both succeed, the temp-file
staging client and the in-memory client return the same text: the staged
write / read-back round-trip is byte-identical to decompressing in
memory. -/
theorem C4_staging_equals_in_memory (env : ReportEnv) (parse : String → JsonParse)
    (u : UnlinkBehavior) (buffer : List Nat) (t₁ t₂ : String)
    (h : isGzipMagic buffer = true)
    (h1 : (resolveReportBuffer env parse u buffer).1 = ReportOutcome.payload t₁)
    (h2 : downloadReportResolve env buffer = ReportOutcome.payload t₂) :
    t₁ = t₂ := by
  cases hg : env.gunzip buffer with
  | error e =>
    rw [downloadReportResolve] at h2
    simp [h, hg] at h2
  | ok d =>
    rw [downloadReportResolve] at h2
    simp [h, hg] at h2
    by_cases hv : (jsFalsy (env.utf8 d) || containsNull (env.utf8 d)) = true
    · simp [resolveReportBuffer, h, gzipTempPath, hg, hv] at h1
    · rw [Bool.not_eq_true] at hv
      simp [resolveReportBuffer, h, gzipTempPath, hg, hv] at h1
      rw [← h1, ← h2]

/-- Witness for C4: both clients yield "hello" on the stub buffer. -/
theorem C4_staging_equals_in_memory_witness :
    isGzipMagic gzStub = true ∧
    (resolveReportBuffer helloEnv parseFail allOk gzStub).1
      = ReportOutcome.payload "hello" ∧
    downloadReportResolve helloEnv gzStub = ReportOutcome.payload "hello" ∧
    "hello" = "hello" :=
  ⟨by decide, by decide, by decide,
   C4_staging_equals_in_memory helloEnv parseFail allOk gzStub "hello" "hello"
     (by decide) (by decide) (by decide)⟩

/-- Claim C5: with the vendor number resolved (and nonempty, so that the
vendor check passes), any report date failing the `YYYY-MM` pattern makes
both `downloadSalesReport` and `downloadFinanceReport` fail with the
format-validation error — a `failure` result, produced before the
dispatch to the network layer (the `network` constructor, which performs
token generation and the HTTP call, is never reached). -/
theorem C5_bad_format_rejected (cfgV argV rt rst fr : Option String) (d rc : String)
    (now : Instant) (vn : String)
    (hv : effectiveVendor cfgV argV = some vn) (hvn : jsFalsy vn = false)
    (hd : matchesDatePattern d = false) :
    downloadSalesReport cfgV argV rt rst fr d now = HandlerResult.failure dateFormatMsg ∧
    downloadFinanceReport cfgV argV d rc now = HandlerResult.failure dateFormatMsg := by
  constructor
  · simp [downloadSalesReport, hv, hvn, hd, validateRequired]
  · simp [downloadFinanceReport, hv, hvn, hd, validateRequired]

/-- Witness for C5 at the malformed date "2024-1". -/
theorem C5_bad_format_rejected_witness :
    effectiveVendor (some "12345") none = some "12345" ∧
    jsFalsy "12345" = false ∧
    matchesDatePattern "2024-1" = false ∧
    (downloadSalesReport (some "12345") none none none none "2024-1" ⟨24288, 0⟩
        = HandlerResult.failure dateFormatMsg ∧
      downloadFinanceReport (some "12345") none "2024-1" "ZZ" ⟨24288, 0⟩
        = HandlerResult.failure dateFormatMsg) :=
  ⟨rfl, by decide, by decide,
   C5_bad_format_rejected (some "12345") none none none none "2024-1" "ZZ" ⟨24288, 0⟩
     "12345" rfl (by decide) (by decide)⟩

/-- Claim C6: with the vendor number resolved and a well-formed report
date, both handlers reject a date denoting a month strictly later than
the month of the current instant with the future-date message (no
dispatch to the network layer), and otherwise dispatch to the network
layer.  The month a date denotes follows the JS `Date(year, month - 1)`
constructor, including the ECMA-262 `MakeFullYear` mapping of years 0-99
to 1900-1999. -/
theorem C6_future_rejected_past_dispatched (cfgV argV rt rst fr : Option String)
    (d rc : String) (now : Instant) (vn : String)
    (hv : effectiveVendor cfgV argV = some vn) (hvn : jsFalsy vn = false)
    (hd : matchesDatePattern d = true) :
    (jsDateMonthIndex (parseYearMonth d).1 (parseYearMonth d).2 > now.monthIndex →
      downloadSalesReport cfgV argV rt rst fr d now
          = HandlerResult.failure (futureSalesMsg d) ∧
        downloadFinanceReport cfgV argV d rc now
          = HandlerResult.failure (futureFinanceMsg d)) ∧
    (jsDateMonthIndex (parseYearMonth d).1 (parseYearMonth d).2 ≤ now.monthIndex →
      (∃ ps, downloadSalesReport cfgV argV rt rst fr d now
          = HandlerResult.network "/salesReports" ps) ∧
        (∃ ps, downloadFinanceReport cfgV argV d rc now
          = HandlerResult.network "/financeReports" ps)) := by
  have hlt : Instant.jsLt now (monthStart (jsDateMonthIndex (parseYearMonth d).1 (parseYearMonth d).2))
      = decide (now.monthIndex < jsDateMonthIndex (parseYearMonth d).1 (parseYearMonth d).2) := by
    simp [Instant.jsLt, monthStart]
  constructor
  · intro hfut
    have h1 : Instant.jsLt now (monthStart (jsDateMonthIndex (parseYearMonth d).1 (parseYearMonth d).2)) = true := by
      rw [hlt]; exact decide_eq_true hfut
    constructor
    · simp [downloadSalesReport, hv, hvn, hd, validateRequired, h1]
    · simp [downloadFinanceReport, hv, hvn, hd, validateRequired, h1]
  · intro hpast
    have h1 : Instant.jsLt now (monthStart (jsDateMonthIndex (parseYearMonth d).1 (parseYearMonth d).2)) = false := by
      rw [hlt]
      simp [decide_eq_false_iff_not]
      omega
    constructor
    · refine ⟨[("reportDate", d), ("reportType", rt.getD "SALES"),
        ("reportSubType", rst.getD "SUMMARY"), ("frequency", fr.getD "MONTHLY"),
        ("vendorNumber", vn)], ?_⟩
      simp [downloadSalesReport, hv, hvn, hd, validateRequired, h1]
    · refine ⟨[("reportDate", d), ("regionCode", rc), ("vendorNumber", vn)], ?_⟩
      simp [downloadFinanceReport, hv, hvn, hd, validateRequired, h1]

/-- Witness for C6, exercising all three regimes against concrete clocks:
date "2024-01" against June 2024 (month index 24293) dispatches; date
"2099-01" against the same clock is rejected as future; date "0099-01"
against January 1980 (month index 23760) is rejected as future because
`MakeFullYear` maps year 99 to 1999. -/
theorem C6_future_rejected_past_dispatched_witness :
    matchesDatePattern "2024-01" = true ∧
    ((∃ ps, downloadSalesReport (some "12345") none none none none "2024-01" ⟨24293, 7⟩
          = HandlerResult.network "/salesReports" ps) ∧
      (∃ ps, downloadFinanceReport (some "12345") none "2024-01" "ZZ" ⟨24293, 7⟩
          = HandlerResult.network "/financeReports" ps)) ∧
    (downloadSalesReport (some "12345") none none none none "2099-01" ⟨24293, 7⟩
          = HandlerResult.failure (futureSalesMsg "2099-01") ∧
      downloadFinanceReport (some "12345") none "2099-01" "ZZ" ⟨24293, 7⟩
          = HandlerResult.failure (futureFinanceMsg "2099-01")) ∧
    (downloadSalesReport (some "12345") none none none none "0099-01" ⟨23760, 0⟩
          = HandlerResult.failure (futureSalesMsg "0099-01") ∧
      downloadFinanceReport (some "12345") none "0099-01" "ZZ" ⟨23760, 0⟩
          = HandlerResult.failure (futureFinanceMsg "0099-01")) :=
  ⟨by decide,
   (C6_future_rejected_past_dispatched (some "12345") none none none none "2024-01" "ZZ"
       ⟨24293, 7⟩ "12345" rfl (by decide) (by decide)).2 (by decide),
   (C6_future_rejected_past_dispatched (some "12345") none none none none "2099-01" "ZZ"
       ⟨24293, 7⟩ "12345" rfl (by decide) (by decide)).1 (by decide),
   (C6_future_rejected_past_dispatched (some "12345") none none none none "0099-01" "ZZ"
       ⟨23760, 0⟩ "12345" rfl (by decide) (by decide)).1 (by decide)⟩

set_option maxRecDepth 16384 in
/-- Claim C7: every failed axios call with HTTP status 404 whose request
path contains the sales-report segment is classified with the diagnostic
naming the three canonical causes (future date, no data for the period,
report not yet generated), not a generic resource-not-found message. -/
theorem C7_sales404_diagnostic (e : AxiosErrorInfo)
    (ha : e.isAxios = true) (hs : e.status = some 404)
    (hu : urlIncludes e "/salesReports" = true) :
    formatToolResponseMessage e = sales404Msg ∧
    strContains sales404Msg "The requested date is in the future" = true ∧
    strContains sales404Msg "No sales data exists for the requested period" = true ∧
    strContains sales404Msg "t been generated yet" = true ∧
    strContains sales404Msg "Resource not found" = false := by
  refine ⟨?_, by decide, by decide, by decide, by decide⟩
  simp [formatToolResponseMessage, ha, hs, hu]

set_option maxRecDepth 16384 in
/-- Witness for C7 at a 404 from a sales-report path. -/
theorem C7_sales404_diagnostic_witness :
    (AxiosErrorInfo.mk true (some 404) (some "/v1/salesReports") false none "boom").isAxios
        = true ∧
    (formatToolResponseMessage
          (AxiosErrorInfo.mk true (some 404) (some "/v1/salesReports") false none "boom")
        = sales404Msg ∧
      strContains sales404Msg "The requested date is in the future" = true ∧
      strContains sales404Msg "No sales data exists for the requested period" = true ∧
      strContains sales404Msg "t been generated yet" = true ∧
      strContains sales404Msg "Resource not found" = false) :=
  ⟨rfl,
   C7_sales404_diagnostic
     (AxiosErrorInfo.mk true (some 404) (some "/v1/salesReports") false none "boom")
     rfl rfl (by decide)⟩

/-- Claim C8 fails as stated: the variant client's `downloadReport` issues
an outgoing call to the report path `/salesReports` in raw-byte mode whose
accept header is `application/a-gzip` alone, not the claimed
`application/a-gzip, application/json`. -/
theorem C8_counterexample_variant_accept :
    isReportEndpoint "/salesReports" = true ∧
    (downloadReportConfig "tok").responseType = "arraybuffer" ∧
    List.lookup "Accept" (downloadReportConfig "tok").headers = some "application/a-gzip" ∧
    ("application/a-gzip" : String) ≠ "application/a-gzip, application/json" := by decide

/-- Claim C8 as amended: in the main client's `request`, report-endpoint
calls carry `Accept: application/a-gzip, application/json` and raw-byte
(`arraybuffer`) transport, and standard calls use structured (`json`)
transport with no accept header; the variant client's `downloadReport`
also uses raw-byte transport but sends `Accept: application/a-gzip`
without the JSON alternative. -/
theorem C8_transport_invariant_amended (token url : String) :
    (isReportEndpoint url = true →
      List.lookup "Accept" (buildRequestConfig token url).headers
          = some "application/a-gzip, application/json" ∧
        (buildRequestConfig token url).responseType = "arraybuffer") ∧
    (isReportEndpoint url = false →
      List.lookup "Accept" (buildRequestConfig token url).headers = none ∧
        (buildRequestConfig token url).responseType = "json") ∧
    (downloadReportConfig token).responseType = "arraybuffer" ∧
    List.lookup "Accept" (downloadReportConfig token).headers = some "application/a-gzip" := by
  refine ⟨?_, ?_, rfl, ?_⟩
  · intro h
    constructor
    · simp [buildRequestConfig, h, List.lookup]
    · simp [buildRequestConfig, h]
  · intro h
    constructor
    · simp [buildRequestConfig, h, List.lookup]
    · simp [buildRequestConfig, h]
  · simp [downloadReportConfig, List.lookup]

/-- Witness for C8 (amended) at a report url and a standard url. -/
theorem C8_transport_invariant_amended_witness :
    (List.lookup "Accept" (buildRequestConfig "tok" "/v1/salesReports").headers
        = some "application/a-gzip, application/json" ∧
      (buildRequestConfig "tok" "/v1/salesReports").responseType = "arraybuffer") ∧
    (List.lookup "Accept" (buildRequestConfig "tok" "/apps").headers = none ∧
      (buildRequestConfig "tok" "/apps").responseType = "json") :=
  ⟨(C8_transport_invariant_amended "tok" "/v1/salesReports").1 (by decide),
   ((C8_transport_invariant_amended "tok" "/apps").2).1 (by decide)⟩
